import Mathlib

/-!
Shallow embedding of the `gokrazy-kernel-amd64` repository
(`src/cmd/amd64-build-kernel/build.go` — the in-container builder — and
`src/cmd/amd64-build-kernel/addendum.go` — the config overlay map plus the
host-side wrapper `main`).

Conventions of the embedding:

* A file is a byte list plus a permission/mode word; a file system is a
  partial map from path strings to files.
* Fallible operating-system and process primitives (`os.Create`, `os.Open`,
  `exec.LookPath`, `filepath.EvalSymlinks`, `io.Copy`, running a child
  process, …) are modelled by oracle fields of an environment structure: the
  oracle says whether (and how) the primitive succeeds, and the embedded
  function threads the source's control flow through those oracles exactly
  as the Go code does.
* `log.Fatal` calls `os.Exit`, which terminates the Go process WITHOUT
  running deferred functions.  The wrapper model therefore records, for each
  fatal site, that the deferred `os.RemoveAll(tmp)` did not run.
-/

namespace KernelAmd64

/-! ### File-system model -/

/-- A regular file: its byte content and its permission/mode bits. -/
structure File where
  content : List Nat
  perm : Nat
deriving DecidableEq

/-- Point update of a file-system map. -/
def fsUpdate (fs : String → Option File) (path : String) (f : File) :
    String → Option File :=
  fun q => if q = path then some f else fs q

/-- The mode `os.Create` gives a freshly created file (0666 before umask). -/
def createMode : Nat := 438

/-- Embedding of Go `filepath.Base`: `""` gives `"."`; trailing slashes are
stripped; a path of only slashes gives `"/"`; otherwise the last
slash-separated component is returned. -/
def basename (p : String) : String :=
  if p = "" then "."
  else
    let rev := p.toList.reverse.dropWhile (fun c => c == '/')
    if rev.isEmpty then "/"
    else String.mk (rev.takeWhile (fun c => !(c == '/'))).reverse

/-! ### Container-runtime detection (`addendum.go`, `getContainerExecutable`) -/

/-- The search-path environment seen by the wrapper: `exec.LookPath` and
`filepath.EvalSymlinks`, each returning `none` on failure. -/
structure PathEnv where
  lookPath : String → Option String
  evalSymlinks : String → Option String

/-- The two error returns of `getContainerExecutable`: the propagated
`filepath.EvalSymlinks` error, and the `none of [podman docker] found in
$PATH` error. -/
inductive DetectErr where
  | evalSymlinksFailed (path : String)
  | noneFound
deriving DecidableEq

/-- `choices := []string{"podman", "docker"}` — podman is probed first. -/
def containerChoices : List String := ["podman", "docker"]

/-- The loop body of `getContainerExecutable`: for each candidate,
`exec.LookPath`; on lookup failure `continue`; on success,
`filepath.EvalSymlinks` — whose failure is returned as an error (the
remaining candidates are NOT tried) — and the resolved path is returned. -/
def probeExecutables (env : PathEnv) : List String → Except DetectErr String
  | [] => Except.error DetectErr.noneFound
  | exe :: rest =>
    match env.lookPath exe with
    | none => probeExecutables env rest
    | some p =>
      match env.evalSymlinks p with
      | none => Except.error (DetectErr.evalSymlinksFailed p)
      | some resolved => Except.ok resolved

/-- Embedding of `getContainerExecutable` (addendum.go lines 397–413). -/
def getContainerExecutable (env : PathEnv) : Except DetectErr String :=
  probeExecutables env containerChoices

/-! ### Patch application (`build.go`, `applyPatches`) -/

/-- `filepath.Glob("*.patch")` matches exactly the names ending in
`".patch"` (`*` matches any — possibly empty — run of non-separator
characters). -/
def matchesPatchGlob (f : String) : Bool :=
  List.isSuffixOf ".patch".toList f.toList

/-- `filepath.Glob` returns the matching names of the current directory in
sorted order. -/
def globPatches (cwdFiles : List String) : List String :=
  List.insertionSort (fun a b => a ≤ b) (cwdFiles.filter matchesPatchGlob)

/-- The loop of `applyPatches` over the glob result: each patch is opened
(`os.Open`, oracle `openOk`) and piped into `patch -p1` (oracle `applyOk`);
the first failure of either returns immediately with that patch's error, so
later patches are not attempted and earlier ones stay applied.  Returns the
list of patches actually applied and the name of the failing patch, if
any. -/
def runPatches (openOk applyOk : String → Bool) :
    List String → List String × Option String
  | [] => ([], none)
  | p :: rest =>
    if openOk p = false then ([], some p)
    else if applyOk p = false then ([], some p)
    else
      let r := runPatches openOk applyOk rest
      (p :: r.1, r.2)

/-- Embedding of `applyPatches` (build.go lines 37–61). -/
def applyPatches (openOk applyOk : String → Bool) (cwdFiles : List String) :
    List String × Option String :=
  runPatches openOk applyOk (globPatches cwdFiles)

/-! ### Config overlay (`addendum.go` lines 3–302, `build.go` `compile`) -/

/-- Embedding of the `configAddendumMap` map literal of addendum.go.  Go map
literals reject duplicate keys, so the entries are pairwise distinct in key;
Go map iteration order is unspecified, so the builder may emit these pairs in
any permutation. -/
def configAddendum : List (String × String) := [
  ("CONFIG_LOCALVERSION", "\"-v1-thatwebsite\""),
  ("CONFIG_IPV6", "y"),
  ("CONFIG_DYNAMIC_DEBUG", "y"),
  ("CONFIG_ACPI_THERMAL", "y"),
  ("CONFIG_THERMAL", "y"),
  ("CONFIG_MLXSW_CORE_THERMAL", "y"),
  ("CONFIG_THERMAL_NETLINK", "y"),
  ("CONFIG_INTEL_HFI_THERMAL", "y"),
  ("CONFIG_DEVFREQ_THERMAL", "y"),
  ("CONFIG_INTEL_TH_ACPI", "y"),
  ("CONFIG_X86_PKG_TEMP_THERMAL", "y"),
  ("CONFIG_SQUASHFS", "y"),
  ("CONFIG_SQUASHFS_FILE_CACHE", "y"),
  ("CONFIG_SQUASHFS_DECOMP_MULTI_PERCPU", "y"),
  ("CONFIG_SQUASHFS_ZLIB", "y"),
  ("CONFIG_SQUASHFS_FRAGMENT_CACHE_SIZE", "3"),
  ("CONFIG_DRM_SIMPLEDRM", "n"),
  ("CONFIG_X86_SYSFB", "n"),
  ("CONFIG_FB", "y"),
  ("CONFIG_FB_EFI", "y"),
  ("CONFIG_FB_SIMPLE", "y"),
  ("CONFIG_FUSE_FS", "y"),
  ("CONFIG_NETFILTER_NETLINK_QUEUE", "y"),
  ("CONFIG_XFRM_USER", "y"),
  ("CONFIG_NF_TABLES", "y"),
  ("CONFIG_NF_NAT_IPV4", "y"),
  ("CONFIG_NF_NAT_MASQUERADE_IPV4", "y"),
  ("CONFIG_NFT_PAYLOAD", "y"),
  ("CONFIG_NFT_EXTHDR", "y"),
  ("CONFIG_NFT_META", "y"),
  ("CONFIG_NFT_CT", "y"),
  ("CONFIG_NFT_RBTREE", "y"),
  ("CONFIG_NFT_HASH", "y"),
  ("CONFIG_NFT_COUNTER", "y"),
  ("CONFIG_NFT_LOG", "y"),
  ("CONFIG_NFT_LIMIT", "y"),
  ("CONFIG_NFT_NAT", "y"),
  ("CONFIG_NFT_COMPAT", "y"),
  ("CONFIG_NFT_MASQ", "y"),
  ("CONFIG_NFT_MASQ_IPV4", "y"),
  ("CONFIG_NFT_REDIR", "y"),
  ("CONFIG_NFT_REJECT", "y"),
  ("CONFIG_NF_TABLES_IPV4", "y"),
  ("CONFIG_NFT_REJECT_IPV4", "y"),
  ("CONFIG_NFT_CHAIN_ROUTE_IPV4", "y"),
  ("CONFIG_NFT_CHAIN_NAT_IPV4", "y"),
  ("CONFIG_NF_TABLES_IPV6", "y"),
  ("CONFIG_NFT_CHAIN_ROUTE_IPV6", "y"),
  ("CONFIG_NFT_OBJREF", "y"),
  ("CONFIG_NFT_DUP_IPV4", "y"),
  ("CONFIG_NFT_FIB_IPV4", "y"),
  ("CONFIG_NFT_DUP_IPV6", "y"),
  ("CONFIG_NFT_FIB_IPV6", "y"),
  ("CONFIG_NF_CONNTRACK_AMANDA", "n"),
  ("CONFIG_NF_CONNTRACK_FTP", "n"),
  ("CONFIG_NF_CONNTRACK_H323", "n"),
  ("CONFIG_NF_CONNTRACK_IRC", "n"),
  ("CONFIG_NF_CONNTRACK_NETBIOS_NS", "n"),
  ("CONFIG_NF_CONNTRACK_SNMP", "n"),
  ("CONFIG_NF_CONNTRACK_PPTP", "n"),
  ("CONFIG_NF_CONNTRACK_SANE", "n"),
  ("CONFIG_NF_CONNTRACK_SIP", "n"),
  ("CONFIG_NF_CONNTRACK_TFTP", "n"),
  ("CONFIG_USB_EHCI_HCD", "y"),
  ("CONFIG_USB_XHCI_HCD", "y"),
  ("CONFIG_USB_DEVICEFS", "y"),
  ("CONFIG_USB_STORAGE", "y"),
  ("CONFIG_NVME_CORE", "y"),
  ("CONFIG_BLK_DEV_NVME", "y"),
  ("CONFIG_NVME_MULTIPATH", "y"),
  ("CONFIG_NVME_TARGET_PASSTHRU", "y"),
  ("CONFIG_I40E", "y"),
  ("CONFIG_IGB", "y"),
  ("CONFIG_USB_RTL8152", "y"),
  ("CONFIG_ATL1C", "y"),
  ("CONFIG_ATL2", "y"),
  ("CONFIG_IGC", "y"),
  ("CONFIG_IKCONFIG", "y"),
  ("CONFIG_IKCONFIG_PROC", "y"),
  ("CONFIG_KEXEC_FILE", "y"),
  ("CONFIG_SP5100_TCO", "y"),
  ("CONFIG_NET_UDP_TUNNEL", "y"),
  ("CONFIG_WIREGUARD", "y"),
  ("CONFIG_NET_SCH_TBF", "y"),
  ("CONFIG_SENSORS_K10TEMP", "y"),
  ("CONFIG_SENSORS_NCT6683", "y"),
  ("CONFIG_SENSORS_CORSAIR_CPRO", "y"),
  ("CONFIG_INET_DIAG", "y"),
  ("CONFIG_MACVLAN", "y"),
  ("CONFIG_VIRTIO_PCI", "y"),
  ("CONFIG_VIRTIO_BALLOON", "y"),
  ("CONFIG_VIRTIO_BLK", "y"),
  ("CONFIG_VIRTIO_NET", "y"),
  ("CONFIG_VIRTIO", "y"),
  ("CONFIG_VIRTIO_RING", "y"),
  ("CONFIG_I6300ESB_WDT", "y"),
  ("CONFIG_EFIVAR_FS", "y"),
  ("CONFIG_X86_AMD_PLATFORM_DEVICE", "y"),
  ("CONFIG_CPU_FREQ_DEFAULT_GOV_POWERSAVE", "y"),
  ("CONFIG_CPU_FREQ_GOV_POWERSAVE", "y"),
  ("CONFIG_X86_POWERNOW_K8", "y"),
  ("CONFIG_X86_AMD_FREQ_SENSITIVITY", "y"),
  ("CONFIG_POWERCAP", "y"),
  ("CONFIG_PERF_EVENTS_INTEL_RAPL", "y"),
  ("CONFIG_PROC_THERMAL_MMIO_RAPL", "y"),
  ("CONFIG_INTEL_RAPL_CORE", "y"),
  ("CONFIG_INTEL_RAPL", "y"),
  ("CONFIG_IRQ_TIME_ACCOUNTING", "y"),
  ("CONFIG_TUN", "y"),
  ("CONFIG_BPF_SYSCALL", "y"),
  ("CONFIG_CGROUP_FREEZER", "y"),
  ("CONFIG_CGROUP_BPF", "y"),
  ("CONFIG_SOCK_CGROUP_DATA", "y"),
  ("CONFIG_NET_SOCK_MSG", "y"),
  ("CONFIG_OVERLAY_FS", "y"),
  ("CONFIG_BRIDGE", "y"),
  ("CONFIG_VETH", "y"),
  ("CONFIG_NETFILTER_ADVANCED", "y"),
  ("CONFIG_NETFILTER_XT_MATCH_COMMENT", "y"),
  ("CONFIG_IP_NF_NAT", "y"),
  ("CONFIG_IP_NF_TARGET_MASQUERADE", "y"),
  ("CONFIG_NETFILTER_XT_NAT", "y"),
  ("CONFIG_NETFILTER_XT_TARGET_MASQUERADE", "y"),
  ("CONFIG_NETFILTER_XT_MATCH_MULTIPORT", "y"),
  ("CONFIG_NETFILTER_XT_MARK", "y"),
  ("CONFIG_CGROUP_PIDS", "y"),
  ("CONFIG_MEMCG", "y"),
  ("CONFIG_TCP_CONG_BBR", "y"),
  ("CONFIG_DEFAULT_BBR", "y"),
  ("CONFIG_DEFAULT_TCP_CONG", "bbr"),
  ("CONFIG_EXFAT_FS", "y"),
  ("CONFIG_NTFS3_FS", "y"),
  ("CONFIG_NTFS3_64BIT_CLUSTER", "y"),
  ("CONFIG_NTFS3_LZX_XPRESS", "y"),
  ("CONFIG_NTFS3_FS_POSIX_ACL", "y"),
  ("CONFIG_BTRFS_FS", "y"),
  ("CONFIG_XFS_FS", "y"),
  ("CONFIG_XFS_SUPPORT_V4", "y"),
  ("CONFIG_NVME_HWMON", "y"),
  ("CONFIG_SCSI_UFS_HWMON", "y"),
  ("CONFIG_TIGON3_HWMON", "y"),
  ("CONFIG_BNXT_HWMON", "y"),
  ("CONFIG_BE2NET_HWMON", "y"),
  ("CONFIG_IGB_HWMON", "y"),
  ("CONFIG_IXGBE_HWMON", "y"),
  ("CONFIG_MLXSW_CORE_HWMON", "y"),
  ("CONFIG_QLCNIC_HWMON", "y"),
  ("CONFIG_POWER_SUPPLY_HWMON", "y"),
  ("CONFIG_HWMON", "y"),
  ("CONFIG_HWMON_VID", "y"),
  ("CONFIG_SENSORS_IIO_HWMON", "y"),
  ("CONFIG_SENSORS_MENF21BMC_HWMON", "y"),
  ("CONFIG_SENSORS_INTEL_M10_BMC_HWMON", "y"),
  ("CONFIG_THERMAL_HWMON", "y"),
  ("CONFIG_RTC_DRV_DS3232_HWMON", "y"),
  ("CONFIG_RTC_DRV_RV3029_HWMON", "y"),
  ("CONFIG_ATH9K", "y"),
  ("CONFIG_ATH9K_AHB", "y"),
  ("CONFIG_RTW88", "m"),
  ("CONFIG_RTW88_CORE", "m"),
  ("CONFIG_RTW88_PCI", "m"),
  ("CONFIG_RTW88_8822B", "m"),
  ("CONFIG_RTW88_8822C", "m"),
  ("CONFIG_RTW88_8723D", "m"),
  ("CONFIG_RTW88_8821C", "m"),
  ("CONFIG_RTW88_8822BE", "m"),
  ("CONFIG_RTW88_8822CE", "m"),
  ("CONFIG_RTW88_8723DE", "m"),
  ("CONFIG_RTW88_8821CE", "m"),
  ("CONFIG_RTW88_DEBUG", "m"),
  ("CONFIG_RTW88_DEBUGFS", "m"),
  ("CONFIG_RTW89", "m"),
  ("CONFIG_RTW89_CORE", "m"),
  ("CONFIG_RTW89_PCI", "m"),
  ("CONFIG_RTW89_8852A", "m"),
  ("CONFIG_RTW89_8852AE", "m"),
  ("CONFIG_RTW89_DEBUG", "m"),
  ("CONFIG_IDEAPAD_LAPTOP", "y"),
  ("CONFIG_WERROR", "n")]

/-- The lines the overlay-append step writes: one `KEY=VALUE` line per map
entry, in the iteration order `order` the Go map yields (`compile` builds
`configAddendum` with `k+"="+v` and `Fprintln`s `strings.Join(_, "\n")`). -/
def overlayLines (order : List (String × String)) : List String :=
  order.map (fun kv => kv.1 ++ "=" ++ kv.2)

/-- The overlay-append step of `compile` (build.go lines 71–87), on a config
file modelled as its list of lines: `.config` is opened in append mode and
the overlay lines are appended after the baseline defconfig output. -/
def appendOverlay (baseline : List String) (order : List (String × String)) :
    List String :=
  baseline ++ overlayLines order

/-! ### `copyFile` (build.go lines 111–136; the identical copy in
addendum.go lines 347–372) -/

/-- Oracles for one `copyFile` call: the pre-state file system, whether
`os.Create dest` is permitted, whether `io.Copy` fails (and after how many
bytes), and whether `Stat`/`Chmod`/the final `Close` succeed. -/
structure CopyEnv where
  fs : String → Option File
  canCreate : Bool
  copyFailsAfter : Option Nat
  statOk : Bool
  chmodOk : Bool
  closeOk : Bool

/-- The error returns of `copyFile`, one per `if err != nil` site. -/
inductive CopyErr where
  | createFailed
  | openFailed
  | copyFailed
  | statFailed
  | chmodFailed
  | closeFailed
deriving DecidableEq

/-- Embedding of `copyFile`:

* `os.Create dest` truncates an existing destination (keeping its mode) or
  creates it with mode 0666; on failure nothing changes.
* `os.Open src` is then done on the post-truncation file system (relevant
  when `dest = src`, exactly as in Go); a missing/unopenable source returns
  with the destination already created.
* `io.Copy` transfers the bytes (a failure leaves a prefix in `dest`).
* `in.Stat()` then `out.Chmod(st.Mode())` set `dest`'s mode to `src`'s.
* the final explicit `out.Close()` error is returned last. -/
def copyFile (env : CopyEnv) (dest src : String) :
    (String → Option File) × Option CopyErr :=
  if env.canCreate = false then (env.fs, some CopyErr.createFailed)
  else
    let destPerm :=
      match env.fs dest with
      | some old => old.perm
      | none => createMode
    let fs1 := fsUpdate env.fs dest ⟨[], destPerm⟩
    match fs1 src with
    | none => (fs1, some CopyErr.openFailed)
    | some f =>
      match env.copyFailsAfter with
      | some k =>
        (fsUpdate fs1 dest ⟨f.content.take k, destPerm⟩, some CopyErr.copyFailed)
      | none =>
        let fs2 := fsUpdate fs1 dest ⟨f.content, destPerm⟩
        if env.statOk = false then (fs2, some CopyErr.statFailed)
        else if env.chmodOk = false then (fs2, some CopyErr.chmodFailed)
        else
          let fs3 := fsUpdate fs2 dest ⟨f.content, f.perm⟩
          if env.closeOk = false then (fs3, some CopyErr.closeFailed)
          else (fs3, none)

/-! ### `downloadKernel` (build.go lines 17–35) -/

/-- Oracles for one `downloadKernel` call: the pre-state file system,
whether `os.Create` succeeds, the result of `http.Get` (transport error, or
a status code and body), whether `io.Copy` fails (and after how many bytes),
and whether the final `Close` succeeds. -/
structure HttpEnv where
  fs : String → Option File
  createOk : Bool
  response : Except Unit (Nat × List Nat)
  copyFailsAfter : Option Nat
  closeOk : Bool

/-- The error returns of `downloadKernel`, one per `if err != nil` site plus
the explicit status check. -/
inductive DlErr where
  | createFailed
  | transportFailed
  | badStatus (code : Nat)
  | copyFailed
  | closeFailed
deriving DecidableEq

/-- Embedding of `downloadKernel`: `os.Create(filepath.Base(latest))` FIRST
(truncating, keeping an existing file's mode), then `http.Get(latest)`, then
the `StatusOK` (200) check, then `io.Copy` of the body, then `Close`. -/
def downloadKernel (env : HttpEnv) (latest : String) :
    (String → Option File) × Option DlErr :=
  if env.createOk = false then (env.fs, some DlErr.createFailed)
  else
    let name := basename latest
    let destPerm :=
      match env.fs name with
      | some old => old.perm
      | none => createMode
    let fs1 := fsUpdate env.fs name ⟨[], destPerm⟩
    match env.response with
    | Except.error _ => (fs1, some DlErr.transportFailed)
    | Except.ok (status, body) =>
      if status ≠ 200 then (fs1, some (DlErr.badStatus status))
      else
        match env.copyFailsAfter with
        | some k =>
          (fsUpdate fs1 name ⟨body.take k, destPerm⟩, some DlErr.copyFailed)
        | none =>
          let fs2 := fsUpdate fs1 name ⟨body, destPerm⟩
          if env.closeOk = false then (fs2, some DlErr.closeFailed)
          else (fs2, none)

/-! ### The host-side wrapper (`addendum.go` lines 303–568) -/

/-- `var patchFiles = []string{}` (addendum.go line 345). -/
def patchFiles : List String := []

/-- The patch `COPY` instructions the Dockerfile template renders: one
`COPY {{path}} /usr/src/{{path}}` line per element of `.Patches`. -/
def patchCopyLines (patches : List String) : List String :=
  patches.map (fun p => "COPY " ++ p ++ " /usr/src/" ++ p)

/-- Embedding of `find`: `os.Stat filename` in the current directory first,
then the fixed GOPATH fallback source-tree path; error if neither exists.
`stat` is the oracle telling which paths `os.Stat` finds. -/
def find (stat : String → Bool) (gopath : String) (filename : String) :
    Except String String :=
  if stat filename then Except.ok filename
  else
    let path :=
      gopath ++ "/src/development.thatwebsite.xyz/gokrazy/kernel-amd64/" ++ filename
    if stat path then Except.ok path
    else Except.error ("could not find file " ++ filename)

/-- The arguments of the image-build command (addendum.go lines 502–506);
the program is `execName`, the base name of the effective executable. -/
def dockerBuildArgs : List String :=
  ["build", "--rm=true", "--tag=amd64-rebuild-kernel", "."]

/-- The arguments of the container-run command (addendum.go lines 516–530):
podman — i.e. base name of the effective executable equal to `"podman"` —
gets `--userns=keep-id`; docker does not; both mount the ephemeral host
directory at `/tmp/buildresult`. -/
def dockerRunArgs (executable tmp : String) : List String :=
  if basename executable = "podman" then
    ["run", "--userns=keep-id", "--rm", "--volume",
      tmp ++ ":/tmp/buildresult:Z", "amd64-rebuild-kernel"]
  else
    ["run", "--rm", "--volume",
      tmp ++ ":/tmp/buildresult:Z", "amd64-rebuild-kernel"]

/-- Every `log.Fatal` site of the wrapper's `main`, in source order. -/
inductive WStep where
  | detectRuntime
  | tempDir
  | goInstall
  | findPatch (name : String)
  | findVmlinuz
  | findLib
  | stagePatch (path : String)
  | userCurrent
  | createDockerfile
  | execTemplate
  | closeDockerfile
  | dockerBuild
  | dockerRun
  | copyKernel
  | removeSymlink (path : String)
  | rmModules
  | cpModules
deriving DecidableEq

/-- Oracles for one wrapper run: the search-path environment, the override
flag value, the temp-directory name, and a success oracle per fallible
step. -/
structure WrapperEnv where
  lookPath : String → Option String
  evalSymlinks : String → Option String
  override : String
  tempDirOk : Bool
  tmp : String
  goInstallOk : Bool
  stat : String → Bool
  gopath : String
  stagePatchOk : String → Bool
  userCurrent : Option (String × String)
  dockerfileCreateOk : Bool
  templateOk : Bool
  dockerfileCloseOk : Bool
  dockerBuildOk : Bool
  dockerRunOk : Bool
  copyKernelOk : Bool
  globSymlinks : List String
  removeOk : String → Bool
  rmModulesOk : Bool
  cpModulesOk : Bool

/-- Observations of one wrapper run.  `fatal = none` means `main` returned
normally (exit code 0); `fatal = some s` means `log.Fatal` at step `s`
(exit code 1, deferred functions NOT run).  `tmpRemoved` records whether the
deferred `os.RemoveAll(tmp)` executed; `executable` is the effective
container executable once chosen; `buildCmd` / `runCmd` are the container
build/run invocations once issued. -/
structure WOutcome where
  fatal : Option WStep
  tmpCreated : Bool
  tmpRemoved : Bool
  executable : Option String
  buildCmd : Option (String × List String)
  runCmd : Option (String × List String)
  stagedPatches : List String
  dockerfilePatchLines : Option (List String)

/-- The exit code of the wrapper process: 0 on normal return of `main`,
1 via `log.Fatal`. -/
def exitCode (o : WOutcome) : Nat :=
  if o.fatal = none then 0 else 1

/-- The `find` loop over the declared patch files (addendum.go lines
446–453), returning the resolved paths or the first `log.Fatal` step. -/
def resolvePatches (stat : String → Bool) (gopath : String) :
    List String → Except WStep (List String)
  | [] => Except.ok []
  | f :: rest =>
    match find stat gopath f with
    | Except.error _ => Except.error (WStep.findPatch f)
    | Except.ok p =>
      match resolvePatches stat gopath rest with
      | Except.error s => Except.error s
      | Except.ok ps => Except.ok (p :: ps)

/-- The staging loop (addendum.go lines 467–471): each resolved patch path
is copied into the ephemeral directory under its base name; a copy failure
is the first `log.Fatal` step.  Returns the staged base names. -/
def stagePatches (ok : String → Bool) :
    List String → Except WStep (List String)
  | [] => Except.ok []
  | p :: rest =>
    if ok p = false then Except.error (WStep.stagePatch p)
    else
      match stagePatches ok rest with
      | Except.error s => Except.error s
      | Except.ok ps => Except.ok (basename p :: ps)

/-- The symlink-pruning loop (addendum.go lines 543–553) over the glob
matches: `os.Remove` each; the first failure is a `log.Fatal` step. -/
def removeAllMatches (removeOk : String → Bool) :
    List String → Option WStep
  | [] => none
  | m :: rest =>
    if removeOk m = false then some (WStep.removeSymlink m)
    else removeAllMatches removeOk rest

/-- Steps of the wrapper's `main` from the image build onwards (addendum.go
lines 500–568): `docker build` in the ephemeral directory, `docker run` with
the runtime-dependent arguments, collection of the boot image, pruning of
the `build`/`source` symlinks, and the `rm -rf`/`cp -r` module-tree
replacement.  `executable`, `execName` and `staged` are the Go locals in
scope at this point.  Every failure is a `log.Fatal`, which skips the
deferred `os.RemoveAll(tmp)`. -/
def containerPhase (env : WrapperEnv) (executable execName : String)
    (staged : List String) : WOutcome :=
  if env.dockerBuildOk = false then
    { fatal := some WStep.dockerBuild, tmpCreated := true,
      tmpRemoved := false, executable := some executable,
      buildCmd := some (execName, dockerBuildArgs),
      runCmd := none, stagedPatches := staged,
      dockerfilePatchLines := some (patchCopyLines patchFiles) }
  else if env.dockerRunOk = false then
    { fatal := some WStep.dockerRun, tmpCreated := true,
      tmpRemoved := false, executable := some executable,
      buildCmd := some (execName, dockerBuildArgs),
      runCmd := some (executable, dockerRunArgs executable env.tmp),
      stagedPatches := staged,
      dockerfilePatchLines := some (patchCopyLines patchFiles) }
  else if env.copyKernelOk = false then
    { fatal := some WStep.copyKernel, tmpCreated := true,
      tmpRemoved := false, executable := some executable,
      buildCmd := some (execName, dockerBuildArgs),
      runCmd := some (executable, dockerRunArgs executable env.tmp),
      stagedPatches := staged,
      dockerfilePatchLines := some (patchCopyLines patchFiles) }
  else
    match removeAllMatches env.removeOk env.globSymlinks with
    | some s =>
      { fatal := some s, tmpCreated := true, tmpRemoved := false,
        executable := some executable,
        buildCmd := some (execName, dockerBuildArgs),
        runCmd := some (executable, dockerRunArgs executable env.tmp),
        stagedPatches := staged,
        dockerfilePatchLines := some (patchCopyLines patchFiles) }
    | none =>
      if env.rmModulesOk = false then
        { fatal := some WStep.rmModules, tmpCreated := true,
          tmpRemoved := false, executable := some executable,
          buildCmd := some (execName, dockerBuildArgs),
          runCmd := some (executable, dockerRunArgs executable env.tmp),
          stagedPatches := staged,
          dockerfilePatchLines := some (patchCopyLines patchFiles) }
      else if env.cpModulesOk = false then
        { fatal := some WStep.cpModules, tmpCreated := true,
          tmpRemoved := false, executable := some executable,
          buildCmd := some (execName, dockerBuildArgs),
          runCmd := some (executable, dockerRunArgs executable env.tmp),
          stagedPatches := staged,
          dockerfilePatchLines := some (patchCopyLines patchFiles) }
      else
        { fatal := none, tmpCreated := true, tmpRemoved := true,
          executable := some executable,
          buildCmd := some (execName, dockerBuildArgs),
          runCmd := some (executable, dockerRunArgs executable env.tmp),
          stagedPatches := staged,
          dockerfilePatchLines := some (patchCopyLines patchFiles) }

/-- Steps of the wrapper's `main` from the `go install` cross-compilation
through writing and closing the Dockerfile (addendum.go lines 437–498),
then handing over to `containerPhase`.  The ephemeral directory exists
throughout, so every fatal leaf records that the deferred removal did not
run. -/
def stagingPhase (env : WrapperEnv) (executable execName : String) :
    WOutcome :=
  if env.goInstallOk = false then
    { fatal := some WStep.goInstall, tmpCreated := true,
      tmpRemoved := false, executable := some executable,
      buildCmd := none, runCmd := none, stagedPatches := [],
      dockerfilePatchLines := none }
  else
    match resolvePatches env.stat env.gopath patchFiles with
    | Except.error s =>
      { fatal := some s, tmpCreated := true, tmpRemoved := false,
        executable := some executable, buildCmd := none, runCmd := none,
        stagedPatches := [], dockerfilePatchLines := none }
    | Except.ok patchPaths =>
      match find env.stat env.gopath "vmlinuz" with
      | Except.error _ =>
        { fatal := some WStep.findVmlinuz, tmpCreated := true,
          tmpRemoved := false, executable := some executable,
          buildCmd := none, runCmd := none, stagedPatches := [],
          dockerfilePatchLines := none }
      | Except.ok _kernelPath =>
        match find env.stat env.gopath "lib" with
        | Except.error _ =>
          { fatal := some WStep.findLib, tmpCreated := true,
            tmpRemoved := false, executable := some executable,
            buildCmd := none, runCmd := none, stagedPatches := [],
            dockerfilePatchLines := none }
        | Except.ok _libPath =>
          match stagePatches env.stagePatchOk patchPaths with
          | Except.error s =>
            { fatal := some s, tmpCreated := true, tmpRemoved := false,
              executable := some executable, buildCmd := none,
              runCmd := none, stagedPatches := [],
              dockerfilePatchLines := none }
          | Except.ok staged =>
            match env.userCurrent with
            | none =>
              { fatal := some WStep.userCurrent, tmpCreated := true,
                tmpRemoved := false, executable := some executable,
                buildCmd := none, runCmd := none,
                stagedPatches := staged, dockerfilePatchLines := none }
            | some _u =>
              if env.dockerfileCreateOk = false then
                { fatal := some WStep.createDockerfile, tmpCreated := true,
                  tmpRemoved := false, executable := some executable,
                  buildCmd := none, runCmd := none,
                  stagedPatches := staged, dockerfilePatchLines := none }
              else if env.templateOk = false then
                { fatal := some WStep.execTemplate, tmpCreated := true,
                  tmpRemoved := false, executable := some executable,
                  buildCmd := none, runCmd := none,
                  stagedPatches := staged, dockerfilePatchLines := none }
              else if env.dockerfileCloseOk = false then
                { fatal := some WStep.closeDockerfile, tmpCreated := true,
                  tmpRemoved := false, executable := some executable,
                  buildCmd := none, runCmd := none,
                  stagedPatches := staged,
                  dockerfilePatchLines := some (patchCopyLines patchFiles) }
              else
                containerPhase env executable execName staged

/-- Embedding of the wrapper's `main` (addendum.go lines 415–568), in source
order:

1. `getContainerExecutable` runs UNCONDITIONALLY and its error is
   `log.Fatal`ed BEFORE the override flag is consulted;
2. a non-empty `-overwrite_container_executable` value then replaces the
   detected executable; `execName` is its base name;
3. `ioutil.TempDir`; from here `defer os.RemoveAll(tmp)` is registered, but
   `log.Fatal` = `os.Exit(1)` skips deferred calls, so `tmpRemoved` is
   `true` only on the normal-return branch;
4. the remaining steps (`stagingPhase`, then `containerPhase`) each
   `log.Fatal` on failure. -/
def runWrapper (env : WrapperEnv) : WOutcome :=
  match getContainerExecutable ⟨env.lookPath, env.evalSymlinks⟩ with
  | Except.error _ =>
    { fatal := some WStep.detectRuntime, tmpCreated := false,
      tmpRemoved := false, executable := none, buildCmd := none,
      runCmd := none, stagedPatches := [], dockerfilePatchLines := none }
  | Except.ok detected =>
    let executable := if env.override = "" then detected else env.override
    let execName := basename executable
    if env.tempDirOk = false then
      { fatal := some WStep.tempDir, tmpCreated := false,
        tmpRemoved := false, executable := some executable,
        buildCmd := none, runCmd := none, stagedPatches := [],
        dockerfilePatchLines := none }
    else
      stagingPhase env executable execName

/-! ## Theorems -/

/-- Helper: the patch loop applies exactly the longest prefix of patches that
open and apply cleanly, and reports the first patch that fails. -/
theorem runPatches_eq (openOk applyOk : String → Bool) (l : List String) :
    runPatches openOk applyOk l =
      (l.takeWhile (fun p => openOk p && applyOk p),
       (l.dropWhile (fun p => openOk p && applyOk p)).head?) := by
  induction l with
  | nil => rfl
  | cons p rest ih =>
    by_cases ho : openOk p <;> by_cases ha : applyOk p <;>
      simp [runPatches, ho, ha, ih]

/-- Claim C4: `applyPatches` processes the `*.patch` files of the current
directory in lexically sorted order, applies exactly the prefix that
succeeds (already-applied patches are not rolled back), and stops at —
and reports — the first patch whose open or application fails; patches
after it are not attempted. -/
theorem patches_fail_fast (openOk applyOk : String → Bool)
    (cwdFiles : List String) :
    applyPatches openOk applyOk cwdFiles =
      ((globPatches cwdFiles).takeWhile (fun p => openOk p && applyOk p),
       ((globPatches cwdFiles).dropWhile
          (fun p => openOk p && applyOk p)).head?)
    ∧ List.Sorted (fun a b : String => a ≤ b) (globPatches cwdFiles)
    ∧ (globPatches cwdFiles).Perm (cwdFiles.filter matchesPatchGlob) := by
  refine ⟨runPatches_eq _ _ _, ?_, ?_⟩
  · exact List.sorted_insertionSort _ _
  · exact List.perm_insertionSort _ _

/-- Claim C3: every overlay entry `(KEY, VALUE)` — in particular one whose
key does not occur in the baseline defconfig output — yields a line exactly
`KEY=VALUE` in the materialized config file, for every iteration order the
Go map may yield. -/
theorem overlay_line_present (baseline : List String)
    (order : List (String × String)) (k v : String)
    (horder : order.Perm configAddendum)
    (hmem : (k, v) ∈ configAddendum)
    (_hfresh : ∀ w, (k ++ "=" ++ w) ∉ baseline) :
    (k ++ "=" ++ v) ∈ appendOverlay baseline order := by
  have hmem2 : (k, v) ∈ order := horder.mem_iff.mpr hmem
  unfold appendOverlay overlayLines
  exact List.mem_append_right _ (List.mem_map.mpr ⟨(k, v), hmem2, rfl⟩)

theorem overlay_line_present_witness :
    ("CONFIG_IPV6", "y") ∈ configAddendum ∧
    ("CONFIG_IPV6" ++ "=" ++ "y") ∈ appendOverlay [] configAddendum := by
  have h : ("CONFIG_IPV6", "y") ∈ configAddendum := by
    unfold configAddendum
    exact List.mem_cons_of_mem _ (List.mem_cons_self _ _)
  exact ⟨h, overlay_line_present [] configAddendum "CONFIG_IPV6" "y"
    (List.Perm.refl _) h (fun w hw => (List.not_mem_nil _ hw))⟩

/-- Helper: the identity-mapping flag is not among the docker run
arguments, whatever the mounted directory is. -/
theorem userns_not_in_docker_args (tmp : String) :
    "--userns=keep-id" ∉
      ["run", "--rm", "--volume", tmp ++ ":/tmp/buildresult:Z",
        "amd64-rebuild-kernel"] := by
  intro h
  have h16 : ("--userns=keep-id" : String).length = 16 := rfl
  have h19 : (":/tmp/buildresult:Z" : String).length = 19 := rfl
  simp only [List.mem_cons, List.not_mem_nil, or_false] at h
  rcases h with h | h | h | h | h
  · exact absurd h (by decide)
  · exact absurd h (by decide)
  · exact absurd h (by decide)
  · have hlen := congrArg String.length h
    rw [String.length_append, h16, h19] at hlen
    omega
  · exact absurd h (by decide)

/-- Claim C6: the container run invocation carries `--userns=keep-id` if
and only if the base name of the effective executable is `podman`, and in
both cases it mounts the ephemeral host directory at the fixed in-container
path `/tmp/buildresult` (docker's invocation omits the flag). -/
theorem userns_flag_iff_podman (executable tmp : String) :
    ("--userns=keep-id" ∈ dockerRunArgs executable tmp ↔
      basename executable = "podman")
    ∧ "--volume" ∈ dockerRunArgs executable tmp
    ∧ (tmp ++ ":/tmp/buildresult:Z") ∈ dockerRunArgs executable tmp := by
  by_cases hp : basename executable = "podman"
  · simp only [dockerRunArgs, if_pos hp]
    refine ⟨⟨fun _ => hp, fun _ => ?_⟩, ?_, ?_⟩ <;> simp
  · simp only [dockerRunArgs, if_neg hp]
    refine ⟨⟨fun h => absurd h (userns_not_in_docker_args tmp),
      fun h => absurd h hp⟩, ?_, ?_⟩ <;> simp

theorem userns_flag_iff_podman_witness :
    "--userns=keep-id" ∈ dockerRunArgs "/usr/bin/podman" "/tmp/x" ∧
    "--userns=keep-id" ∉ dockerRunArgs "/usr/bin/docker" "/tmp/x" ∧
    ("/tmp/x" ++ ":/tmp/buildresult:Z") ∈ dockerRunArgs "/usr/bin/docker" "/tmp/x" :=
  ⟨(userns_flag_iff_podman "/usr/bin/podman" "/tmp/x").1.mpr (by decide),
   fun h => absurd ((userns_flag_iff_podman "/usr/bin/docker" "/tmp/x").1.mp h)
     (by decide),
   (userns_flag_iff_podman "/usr/bin/docker" "/tmp/x").2.2⟩

/-- Claim C5 (amended): with no override, detection probes podman before
docker and returns the first one found, resolved through symlinks; it fails
exactly when either neither executable is on the search path, or the
symlink resolution of the first executable found fails (in which case it
errors out even though a runtime is on the path — the unamended "fails
exactly when neither is present" is refuted by
`detect_error_despite_podman_cex`). -/
theorem detection_prefers_podman_amended (env : PathEnv) :
    (∀ p r, env.lookPath "podman" = some p → env.evalSymlinks p = some r →
      getContainerExecutable env = Except.ok r)
    ∧ (∀ p r, env.lookPath "podman" = none → env.lookPath "docker" = some p →
        env.evalSymlinks p = some r → getContainerExecutable env = Except.ok r)
    ∧ ((∃ e, getContainerExecutable env = Except.error e) ↔
        (env.lookPath "podman" = none ∧ env.lookPath "docker" = none)
        ∨ (∃ p, env.lookPath "podman" = some p ∧ env.evalSymlinks p = none)
        ∨ (env.lookPath "podman" = none ∧
            ∃ p, env.lookPath "docker" = some p ∧ env.evalSymlinks p = none)) := by
  rcases hpod : env.lookPath "podman" with _ | p
  · rcases hdoc : env.lookPath "docker" with _ | q
    · have hval : getContainerExecutable env = Except.error DetectErr.noneFound := by
        simp [getContainerExecutable, containerChoices, probeExecutables, hpod, hdoc]
      refine ⟨?_, ?_, ?_⟩
      · intro p r hp _; simp at hp
      · intro p r _ hq _; simp at hq
      · simp [hval, hpod, hdoc]
    · rcases hsym : env.evalSymlinks q with _ | r
      · have hval : getContainerExecutable env =
            Except.error (DetectErr.evalSymlinksFailed q) := by
          simp [getContainerExecutable, containerChoices, probeExecutables,
            hpod, hdoc, hsym]
        refine ⟨?_, ?_, ?_⟩
        · intro p r hp _; simp at hp
        · intro p r _ hq hs
          injection hq with h2; subst h2; rw [hsym] at hs; simp at hs
        · simp [hval, hpod, hdoc, hsym]
      · have hval : getContainerExecutable env = Except.ok r := by
          simp [getContainerExecutable, containerChoices, probeExecutables,
            hpod, hdoc, hsym]
        refine ⟨?_, ?_, ?_⟩
        · intro p r' hp _; simp at hp
        · intro p r' _ hq hs
          injection hq with h2; subst h2; rw [hsym] at hs
          injection hs with h3; subst h3; exact hval
        · simp [hval, hpod, hdoc, hsym]
  · rcases hsym : env.evalSymlinks p with _ | r
    · have hval : getContainerExecutable env =
          Except.error (DetectErr.evalSymlinksFailed p) := by
        simp [getContainerExecutable, containerChoices, probeExecutables,
          hpod, hsym]
      refine ⟨?_, ?_, ?_⟩
      · intro p' r' hp hs
        injection hp with h2; subst h2; rw [hsym] at hs; simp at hs
      · intro p' r' hnone _ _; simp at hnone
      · simp [hval, hpod, hsym]
    · have hval : getContainerExecutable env = Except.ok r := by
        simp [getContainerExecutable, containerChoices, probeExecutables,
          hpod, hsym]
      refine ⟨?_, ?_, ?_⟩
      · intro p' r' hp hs
        injection hp with h2; subst h2; rw [hsym] at hs
        injection hs with h3; subst h3; exact hval
      · intro p' r' hnone _ _; simp at hnone
      · simp [hval, hpod, hsym]

/-- Search-path environment refuting claim C5 as stated: podman (and
docker) are on the search path, but symlink resolution of the found podman
path fails, and detection nevertheless returns an error. -/
def cexPathEnv : PathEnv where
  lookPath := fun s =>
    if s = "podman" then some "/usr/bin/podman"
    else if s = "docker" then some "/usr/bin/docker" else none
  evalSymlinks := fun _ => none

theorem detect_error_despite_podman_cex :
    cexPathEnv.lookPath "podman" = some "/usr/bin/podman" ∧
    cexPathEnv.lookPath "docker" = some "/usr/bin/docker" ∧
    getContainerExecutable cexPathEnv =
      Except.error (DetectErr.evalSymlinksFailed "/usr/bin/podman") :=
  ⟨rfl, rfl, rfl⟩

/-- Search-path environment where both runtimes are present and resolve;
detection picks podman. -/
def wPathEnv : PathEnv where
  lookPath := fun s =>
    if s = "podman" then some "/usr/bin/podman"
    else if s = "docker" then some "/usr/bin/docker" else none
  evalSymlinks := fun p =>
    if p = "/usr/bin/podman" then some "/opt/podman-real"
    else if p = "/usr/bin/docker" then some "/opt/docker-real" else none

theorem detection_prefers_podman_witness :
    getContainerExecutable wPathEnv = Except.ok "/opt/podman-real" :=
  (detection_prefers_podman_amended wPathEnv).1 "/usr/bin/podman"
    "/opt/podman-real" rfl rfl

/-- Claim C7: for a source that can be opened and a (distinct) destination
that can be created, `copyFile` makes the destination's bytes equal to the
source's and its permission bits equal to the source's; it errors when the
source cannot be opened or the destination cannot be created or written;
and whenever creation succeeded, the destination file exists afterwards
even if a later step failed.  (The `dest ≠ src` hypothesis formalizes that
source and destination denote two files: `os.Create` truncates before
`os.Open` reads.) -/
theorem copyFile_spec (env : CopyEnv) (dest src : String) :
    (∀ f, env.fs src = some f → dest ≠ src → env.canCreate = true →
      env.copyFailsAfter = none → env.statOk = true → env.chmodOk = true →
      env.closeOk = true →
      (copyFile env dest src).2 = none ∧
      (copyFile env dest src).1 dest = some ⟨f.content, f.perm⟩)
    ∧ (env.canCreate = false →
        (copyFile env dest src).2 = some CopyErr.createFailed)
    ∧ (env.canCreate = true → dest ≠ src → env.fs src = none →
        (copyFile env dest src).2 = some CopyErr.openFailed)
    ∧ (env.canCreate = true →
        ∃ g, (copyFile env dest src).1 dest = some g) := by
  refine ⟨?_, ?_, ?_, ?_⟩
  · intro f hf hne hc hcf hst hch hcl
    have hsrc : src ≠ dest := fun h => hne h.symm
    simp [copyFile, fsUpdate, hc, hcf, hst, hch, hcl, hsrc, hf]
  · intro hc
    simp [copyFile, hc]
  · intro hc hne hf
    have hsrc : src ≠ dest := fun h => hne h.symm
    simp [copyFile, fsUpdate, hc, hsrc, hf]
  · intro hc
    have hsome : ((copyFile env dest src).1 dest).isSome = true := by
      simp only [copyFile, hc]
      repeat' split
      all_goals try simp_all [fsUpdate]
    exact Option.isSome_iff_exists.mp hsome

/-- A concrete environment in which `copyFile` succeeds end-to-end. -/
def wCopyEnv : CopyEnv where
  fs := fun p => if p = "/src/a" then some ⟨[7, 8], 493⟩ else none
  canCreate := true
  copyFailsAfter := none
  statOk := true
  chmodOk := true
  closeOk := true

theorem copyFile_spec_witness :
    (copyFile wCopyEnv "/dst/b" "/src/a").2 = none ∧
    (copyFile wCopyEnv "/dst/b" "/src/a").1 "/dst/b" = some ⟨[7, 8], 493⟩ :=
  (copyFile_spec wCopyEnv "/dst/b" "/src/a").1 ⟨[7, 8], 493⟩ rfl (by decide)
    rfl rfl rfl rfl rfl

/-- Claim C8 (amended): `downloadKernel` succeeds — writing the full
response body to the file named by the URL's final path segment — exactly
when the local file can be created, the transport delivers a response,
the status is 200, and the body copy and the final close succeed; a local
create/copy/close failure also makes it fail, so "fails exactly when the
status is not success or a transport error occurs" is refuted by
`download_error_despite_ok_status_cex`. -/
theorem download_result_amended (env : HttpEnv) (latest : String) :
    ((downloadKernel env latest).2 = none ↔
      env.createOk = true ∧ env.copyFailsAfter = none ∧ env.closeOk = true ∧
      ∃ body, env.response = Except.ok (200, body))
    ∧ (∀ body, env.createOk = true → env.copyFailsAfter = none →
        env.closeOk = true → env.response = Except.ok (200, body) →
        (downloadKernel env latest).2 = none ∧
        ∃ g, (downloadKernel env latest).1 (basename latest) = some g ∧
          g.content = body) := by
  constructor
  · unfold downloadKernel
    repeat' split <;> simp_all
  · intro body hc hcf hcl hresp
    simp [downloadKernel, fsUpdate, hc, hcf, hcl, hresp]

/-- Environment refuting claim C8 as stated: the response has status 200
and there is no transport error, yet the run fails because the local
archive file cannot be created. -/
def cexHttpEnv : HttpEnv where
  fs := fun _ => none
  createOk := false
  response := Except.ok (200, [1, 2, 3])
  copyFailsAfter := none
  closeOk := true

theorem download_error_despite_ok_status_cex :
    cexHttpEnv.response = Except.ok (200, [1, 2, 3]) ∧
    (downloadKernel cexHttpEnv "https://example.org/linux-6.1.tar.xz").2 =
      some DlErr.createFailed :=
  ⟨rfl, rfl⟩

/-- A concrete environment in which the download succeeds. -/
def wHttpEnv : HttpEnv where
  fs := fun _ => none
  createOk := true
  response := Except.ok (200, [10, 20])
  copyFailsAfter := none
  closeOk := true

theorem download_result_witness :
    (downloadKernel wHttpEnv "https://example.org/linux-6.1.tar.xz").2 = none ∧
    ∃ g, (downloadKernel wHttpEnv "https://example.org/linux-6.1.tar.xz").1
        (basename "https://example.org/linux-6.1.tar.xz") = some g ∧
      g.content = [10, 20] :=
  (download_result_amended wHttpEnv "https://example.org/linux-6.1.tar.xz").2
    [10, 20] rfl rfl rfl rfl

/-- Claim C9: the local archive file is created (truncated) before the HTTP
request is issued, so after every download that fails with a transport
error or a non-success status the file nevertheless exists — empty, since
those failures occur before any body byte is copied. -/
theorem archive_exists_after_failed_download (env : HttpEnv) (latest : String)
    (hc : env.createOk = true)
    (hfail : (downloadKernel env latest).2 = some DlErr.transportFailed ∨
      ∃ c, (downloadKernel env latest).2 = some (DlErr.badStatus c)) :
    ∃ g, (downloadKernel env latest).1 (basename latest) = some g ∧
      g.content = [] := by
  rcases hresp : env.response with _ | ⟨status, body⟩
  · simp [downloadKernel, hc, hresp, fsUpdate]
  · by_cases hstatus : status = 200
    · subst hstatus
      rcases hcf : env.copyFailsAfter with _ | k <;>
        by_cases hcl : env.closeOk = false <;>
        simp [downloadKernel, hc, hresp, hcf, hcl] at hfail
    · simp [downloadKernel, hc, hresp, hstatus, fsUpdate]

/-- A concrete environment where the download fails with a transport
error. -/
def wHttpEnvFail : HttpEnv where
  fs := fun _ => none
  createOk := true
  response := Except.error ()
  copyFailsAfter := none
  closeOk := true

theorem archive_exists_witness :
    ∃ g, (downloadKernel wHttpEnvFail "https://example.org/linux-6.1.tar.xz").1
        (basename "https://example.org/linux-6.1.tar.xz") = some g ∧
      g.content = [] :=
  archive_exists_after_failed_download wHttpEnvFail
    "https://example.org/linux-6.1.tar.xz" rfl (Or.inl rfl)

/-- Helper: facts about the container phase, for every environment and
whatever `executable`, `execName` and staged patch list are in scope: the
effective executable is recorded; the build command, once issued, is
`execName build …`; the run command, once issued, is
`executable run (dockerRunArgs)`; the deferred temp-dir removal runs iff no
step was fatal; and the Dockerfile patch lines are the rendered ones. -/
theorem containerPhase_facts (env : WrapperEnv) (executable execName : String)
    (staged : List String) :
    (containerPhase env executable execName staged).executable =
      some executable
    ∧ ((containerPhase env executable execName staged).buildCmd = none ∨
        (containerPhase env executable execName staged).buildCmd =
          some (execName, dockerBuildArgs))
    ∧ ((containerPhase env executable execName staged).runCmd = none ∨
        (containerPhase env executable execName staged).runCmd =
          some (executable, dockerRunArgs executable env.tmp))
    ∧ ((containerPhase env executable execName staged).tmpRemoved = true ↔
        (containerPhase env executable execName staged).fatal = none)
    ∧ (containerPhase env executable execName staged).tmpCreated = true
    ∧ (containerPhase env executable execName staged).stagedPatches = staged
    ∧ (containerPhase env executable execName staged).dockerfilePatchLines =
        some (patchCopyLines patchFiles) := by
  unfold containerPhase
  repeat' split
  all_goals simp

/-- Helper: whatever list the patch `find` loop resolves and the staging
loop then copies, both are empty, because the declared patch-file list is
empty. -/
theorem staged_nil (stat : String → Bool) (gopath : String)
    (ok : String → Bool) (pp ps : List String)
    (h1 : resolvePatches stat gopath patchFiles = Except.ok pp)
    (h2 : stagePatches ok pp = Except.ok ps) : ps = [] := by
  have hr : resolvePatches stat gopath patchFiles = Except.ok [] := rfl
  rw [hr] at h1
  have hpp : pp = [] := (Except.ok.inj h1).symm
  subst hpp
  have hs : stagePatches ok [] = Except.ok [] := rfl
  rw [hs] at h2
  exact (Except.ok.inj h2).symm

/-- Helper: the same facts for the staging phase; the staged patch list is
empty because the declared patch-file list is empty, and the Dockerfile
patch lines exist only once the template has been executed. -/
theorem stagingPhase_facts (env : WrapperEnv) (executable execName : String) :
    (stagingPhase env executable execName).executable = some executable
    ∧ ((stagingPhase env executable execName).buildCmd = none ∨
        (stagingPhase env executable execName).buildCmd =
          some (execName, dockerBuildArgs))
    ∧ ((stagingPhase env executable execName).runCmd = none ∨
        (stagingPhase env executable execName).runCmd =
          some (executable, dockerRunArgs executable env.tmp))
    ∧ ((stagingPhase env executable execName).tmpRemoved = true ↔
        (stagingPhase env executable execName).fatal = none)
    ∧ (stagingPhase env executable execName).tmpCreated = true
    ∧ (stagingPhase env executable execName).stagedPatches = []
    ∧ ((stagingPhase env executable execName).dockerfilePatchLines = none ∨
        (stagingPhase env executable execName).dockerfilePatchLines =
          some (patchCopyLines patchFiles)) := by
  unfold stagingPhase
  repeat' split
  all_goals try simp
  all_goals
    (have hps := staged_nil env.stat env.gopath env.stagePatchOk _ _
      (by assumption) (by assumption)
     subst hps
     first
       | rfl
       | (obtain ⟨f1, f2, f3, f4, f5, f6, f7⟩ :=
            containerPhase_facts env executable execName []
          exact ⟨f1, f2, f3, f4, f5, f6, Or.inr f7⟩))

/-- Helper: the facts about a full wrapper run needed by the claims about
`main`: the deferred temp-dir removal runs iff no step was fatal; no patch
is ever staged; the Dockerfile, when rendered, holds the (empty) list of
patch COPY lines; and when detection succeeds the effective executable is
the override if non-empty (the detected one otherwise), with the build/run
commands using it. -/
theorem runWrapper_facts (env : WrapperEnv) :
    ((runWrapper env).tmpRemoved = true ↔ (runWrapper env).fatal = none)
    ∧ (runWrapper env).stagedPatches = []
    ∧ ((runWrapper env).dockerfilePatchLines = none ∨
        (runWrapper env).dockerfilePatchLines =
          some (patchCopyLines patchFiles))
    ∧ (∀ d, getContainerExecutable ⟨env.lookPath, env.evalSymlinks⟩ =
          Except.ok d →
        (runWrapper env).executable =
          some (if env.override = "" then d else env.override)
        ∧ ((runWrapper env).runCmd = none ∨
            (runWrapper env).runCmd =
              some ((if env.override = "" then d else env.override),
                dockerRunArgs (if env.override = "" then d else env.override)
                  env.tmp))
        ∧ ((runWrapper env).buildCmd = none ∨
            (runWrapper env).buildCmd =
              some (basename (if env.override = "" then d else env.override),
                dockerBuildArgs))) := by
  unfold runWrapper
  rcases hdet2 : getContainerExecutable ⟨env.lookPath, env.evalSymlinks⟩
    with e | dtc
  · dsimp only
    exact ⟨by simp, rfl, Or.inl rfl, fun d hd => Except.noConfusion hd⟩
  · dsimp only
    by_cases ht : env.tempDirOk = false
    · rw [if_pos ht]
      refine ⟨by simp, rfl, Or.inl rfl, ?_⟩
      intro d hd
      injection hd with h2
      subst h2
      exact ⟨rfl, Or.inl rfl, Or.inl rfl⟩
    · rw [if_neg ht]
      obtain ⟨f1, f2, f3, f4, f5, f6, f7⟩ := stagingPhase_facts env
        (if env.override = "" then dtc else env.override)
        (basename (if env.override = "" then dtc else env.override))
      refine ⟨f4, f6, f7, ?_⟩
      intro d hd
      injection hd with h2
      subst h2
      exact ⟨f1, f3, f2⟩

/-- Claim C1 (amended): when the override flag is non-empty AND runtime
detection succeeds, the override value is the effective executable — the
run command's program is the override itself and the build command's
program is its base name.  Detection is NOT bypassed: it runs first and its
failure is fatal even with an override, as
`override_ignored_when_no_runtime_cex` shows, so the unamended "the run
does not fail with the runtime-not-found error even when neither podman
nor docker is present" is false. -/
theorem override_wins_when_detection_succeeds (env : WrapperEnv) (d : String)
    (hdet : getContainerExecutable ⟨env.lookPath, env.evalSymlinks⟩ =
      Except.ok d)
    (hov : env.override ≠ "") :
    (runWrapper env).executable = some env.override
    ∧ (∀ p a, (runWrapper env).runCmd = some (p, a) →
        p = env.override ∧ a = dockerRunArgs env.override env.tmp)
    ∧ (∀ p a, (runWrapper env).buildCmd = some (p, a) →
        p = basename env.override ∧ a = dockerBuildArgs) := by
  obtain ⟨-, -, -, hx⟩ := runWrapper_facts env
  obtain ⟨h1, h2, h3⟩ := hx d hdet
  rw [if_neg hov] at h1 h2 h3
  refine ⟨h1, ?_, ?_⟩
  · intro p a h
    rcases h2 with h2 | h2
    · rw [h2] at h; exact Option.noConfusion h
    · rw [h2] at h
      injection h with hh
      injection hh with hp ha
      exact ⟨hp.symm, ha.symm⟩
  · intro p a h
    rcases h3 with h3 | h3
    · rw [h3] at h; exact Option.noConfusion h
    · rw [h3] at h
      injection h with hh
      injection hh with hp ha
      exact ⟨hp.symm, ha.symm⟩

/-- Wrapper environment refuting claim C1 as stated: the override flag is
set to `docker`, neither podman nor docker is on the search path, and the
run nevertheless terminates fatally at the runtime-detection step. -/
def cexEnvC1 : WrapperEnv where
  lookPath := fun _ => none
  evalSymlinks := fun p => some p
  override := "docker"
  tempDirOk := true
  tmp := "/tmp/amd64-rebuild-kernel123"
  goInstallOk := true
  stat := fun _ => true
  gopath := "/root/go"
  stagePatchOk := fun _ => true
  userCurrent := some ("1000", "1000")
  dockerfileCreateOk := true
  templateOk := true
  dockerfileCloseOk := true
  dockerBuildOk := true
  dockerRunOk := true
  copyKernelOk := true
  globSymlinks := []
  removeOk := fun _ => true
  rmModulesOk := true
  cpModulesOk := true

theorem override_ignored_when_no_runtime_cex :
    cexEnvC1.override = "docker" ∧
    cexEnvC1.lookPath "podman" = none ∧ cexEnvC1.lookPath "docker" = none ∧
    (runWrapper cexEnvC1).fatal = some WStep.detectRuntime ∧
    exitCode (runWrapper cexEnvC1) = 1 :=
  ⟨rfl, rfl, rfl, rfl, rfl⟩

/-- Wrapper environment where podman is detected, the override is `docker`,
and every later step succeeds. -/
def wEnvC1 : WrapperEnv where
  lookPath := fun s => if s = "podman" then some "/usr/bin/podman" else none
  evalSymlinks := fun p => some p
  override := "docker"
  tempDirOk := true
  tmp := "/tmp/amd64-rebuild-kernel123"
  goInstallOk := true
  stat := fun _ => true
  gopath := "/root/go"
  stagePatchOk := fun _ => true
  userCurrent := some ("1000", "1000")
  dockerfileCreateOk := true
  templateOk := true
  dockerfileCloseOk := true
  dockerBuildOk := true
  dockerRunOk := true
  copyKernelOk := true
  globSymlinks := []
  removeOk := fun _ => true
  rmModulesOk := true
  cpModulesOk := true

theorem override_wins_witness :
    (runWrapper wEnvC1).executable = some "docker" :=
  (override_wins_when_detection_succeeds wEnvC1 "/usr/bin/podman" rfl
    (by decide)).1

/-- Claim C2 (amended): the ephemeral temporary directory is removed by
process exit exactly on runs that finish successfully; on a fatal
termination at any step after the directory was created, `log.Fatal` calls
`os.Exit`, the deferred `os.RemoveAll` never runs, and the directory is
left behind — refuting the claim as stated, see
`tmpdir_leak_on_fatal_cex`. -/
theorem tmpdir_removed_iff_success (env : WrapperEnv)
    (_hcreated : (runWrapper env).tmpCreated = true) :
    (runWrapper env).tmpRemoved = true ↔ (runWrapper env).fatal = none :=
  (runWrapper_facts env).1

/-- Wrapper environment refuting claim C2 as stated: the temp directory is
created, the `go install` step then fails fatally, and the directory is not
removed. -/
def cexEnvC2 : WrapperEnv where
  lookPath := fun s => if s = "podman" then some "/usr/bin/podman" else none
  evalSymlinks := fun p => some p
  override := ""
  tempDirOk := true
  tmp := "/tmp/amd64-rebuild-kernel123"
  goInstallOk := false
  stat := fun _ => true
  gopath := "/root/go"
  stagePatchOk := fun _ => true
  userCurrent := some ("1000", "1000")
  dockerfileCreateOk := true
  templateOk := true
  dockerfileCloseOk := true
  dockerBuildOk := true
  dockerRunOk := true
  copyKernelOk := true
  globSymlinks := []
  removeOk := fun _ => true
  rmModulesOk := true
  cpModulesOk := true

theorem tmpdir_leak_on_fatal_cex :
    (runWrapper cexEnvC2).tmpCreated = true ∧
    (runWrapper cexEnvC2).fatal = some WStep.goInstall ∧
    (runWrapper cexEnvC2).tmpRemoved = false ∧
    exitCode (runWrapper cexEnvC2) = 1 :=
  ⟨rfl, rfl, rfl, rfl⟩

/-- Wrapper environment where podman is detected, no override is given,
and every step succeeds. -/
def wEnvC2 : WrapperEnv where
  lookPath := fun s => if s = "podman" then some "/usr/bin/podman" else none
  evalSymlinks := fun p => some p
  override := ""
  tempDirOk := true
  tmp := "/tmp/amd64-rebuild-kernel123"
  goInstallOk := true
  stat := fun _ => true
  gopath := "/root/go"
  stagePatchOk := fun _ => true
  userCurrent := some ("1000", "1000")
  dockerfileCreateOk := true
  templateOk := true
  dockerfileCloseOk := true
  dockerBuildOk := true
  dockerRunOk := true
  copyKernelOk := true
  globSymlinks := []
  removeOk := fun _ => true
  rmModulesOk := true
  cpModulesOk := true

theorem tmpdir_removed_iff_success_witness :
    (runWrapper wEnvC2).tmpCreated = true ∧
    (runWrapper wEnvC2).tmpRemoved = true :=
  ⟨rfl, (tmpdir_removed_iff_success wEnvC2 rfl).mpr rfl⟩

/-- Claim C10: the wrapper's declared patch-file list is empty, so every
run stages zero patches into the ephemeral build context, the rendered
Dockerfile holds zero patch COPY instructions, and the in-container
builder's `*.patch` glob — over the staged patches plus whatever non-patch
files the container working directory holds — matches nothing, so no patch
is ever applied. -/
theorem no_patches_ever :
    patchFiles = []
    ∧ patchCopyLines patchFiles = []
    ∧ (∀ env : WrapperEnv, (runWrapper env).stagedPatches = [])
    ∧ (∀ env : WrapperEnv, ∀ lines,
        (runWrapper env).dockerfilePatchLines = some lines → lines = [])
    ∧ (∀ openOk applyOk : String → Bool, ∀ others : List String,
        (∀ f ∈ others, matchesPatchGlob f = false) →
        applyPatches openOk applyOk (patchFiles ++ others) = ([], none)) := by
  refine ⟨rfl, rfl, ?_, ?_, ?_⟩
  · intro env
    exact (runWrapper_facts env).2.1
  · intro env lines h
    rcases (runWrapper_facts env).2.2.1 with hl | hl
    · rw [hl] at h; exact Option.noConfusion h
    · rw [hl] at h
      injection h with h2
      rw [← h2]
      rfl
  · intro openOk applyOk others h
    have hfilter : (patchFiles ++ others).filter matchesPatchGlob = [] := by
      rw [List.filter_eq_nil_iff]
      intro a ha
      simp only [patchFiles, List.nil_append] at ha
      simp [h a ha]
    simp [applyPatches, globPatches, hfilter, runPatches]

theorem no_patches_ever_witness :
    applyPatches (fun _ => true) (fun _ => true)
      (patchFiles ++ ["linux-6.1.tar.xz"]) = ([], none) :=
  no_patches_ever.2.2.2.2 (fun _ => true) (fun _ => true)
    ["linux-6.1.tar.xz"] (by decide)


end KernelAmd64






